import Mathlib

/-!
Verification of the deployment orchestrator and service-example scripts of
the aws-architecture-certification repository, as described by its design
specification. The remote CloudFormation service is modelled as explicit
state, and each Python function is embedded as a pure Lean function from
the outcomes of its external calls to its return value together with the
trace of remote requests it issues.
-/

namespace AwsDeploy

/-- Status of a CloudFormation stack, following the enumeration of the
specification (absence is represented by a name not being bound in the
service state rather than by a status value). -/
inductive StackStatus where
  | creating
  | createComplete
  | updating
  | updateComplete
  | rollbackComplete
  | deleting
  | deleteComplete
  | failed
  deriving DecidableEq, Repr

/-- Error payload of a failed SDK call or local file read. -/
inductive AwsError where
  | validationError
  | accessDenied
  | networkError
  | ioError
  | other (msg : String)
  deriving DecidableEq, Repr

/-- Remote requests issued by the deploy helper, as recorded by the
embedding. -/
inductive Request where
  | describeStacks (stackName : String)
  | createStack (stackName : String)
  | updateStack (stackName : String)
  | deleteStack (stackName : String)
  | listStacks
  | getCallerIdentity
  deriving DecidableEq, Repr

/-- Requests that mutate remote state. -/
def Request.isMutating : Request → Bool
  | .createStack _ => true
  | .updateStack _ => true
  | .deleteStack _ => true
  | _ => false

/-- Outcomes of the individual external calls made by
AWSDeployer.deploy_cloudformation_stack, in program order: the template
file read, the existence lookup (describe_stacks), the create request, the
update request, the waiter, and the final describe_stacks used to print
outputs (carrying the Stacks list of its response). -/
structure DeployEnv where
  templateRead : Except AwsError String
  describeOutcome : Except AwsError (List StackStatus)
  createOutcome : Except AwsError Unit
  updateOutcome : Except AwsError Unit
  waiterOutcome : Except AwsError Unit
  finalDescribe : Except AwsError (List StackStatus)

/-- Shallow embedding of AWSDeployer.deploy_cloudformation_stack
(deploy.py lines 66 to 144). It returns the boolean result together with
the list of CloudFormation requests issued, in order. The template file is
read first; the inner bare except around describe_stacks turns any lookup
failure into stack_exists = False; the outer except turns any later
failure, including an empty Stacks list in the final response, into a
False return. -/
def deploy_cloudformation_stack (stackName : String) (env : DeployEnv) :
    Bool × List Request :=
  match env.templateRead with
  | .error _ => (false, [])
  | .ok _templateBody =>
    match env.describeOutcome with
    | .ok _ =>
      let trace := [Request.describeStacks stackName, Request.updateStack stackName]
      match env.updateOutcome with
      | .error _ => (false, trace)
      | .ok _ =>
        match env.waiterOutcome with
        | .error _ => (false, trace)
        | .ok _ =>
          match env.finalDescribe with
          | .error _ => (false, trace ++ [Request.describeStacks stackName])
          | .ok [] => (false, trace ++ [Request.describeStacks stackName])
          | .ok (_ :: _) => (true, trace ++ [Request.describeStacks stackName])
    | .error _ =>
      let trace := [Request.describeStacks stackName, Request.createStack stackName]
      match env.createOutcome with
      | .error _ => (false, trace)
      | .ok _ =>
        match env.waiterOutcome with
        | .error _ => (false, trace)
        | .ok _ =>
          match env.finalDescribe with
          | .error _ => (false, trace ++ [Request.describeStacks stackName])
          | .ok [] => (false, trace ++ [Request.describeStacks stackName])
          | .ok (_ :: _) => (true, trace ++ [Request.describeStacks stackName])

/-- State of the simulated CloudFormation service: the stacks it holds
(name and status; a name is resolved to its first binding) and the page
size the provider uses when paginating list_stacks responses. -/
structure Service where
  stackTable : List (String × StackStatus)
  pageSize : Nat

/-- Status of the stack bound to a name, if any. -/
def lookupStack (svc : Service) (name : String) : Option StackStatus :=
  (svc.stackTable.find? (fun p => p.1 == name)).map (fun p => p.2)

/-- Outcome of describe_stacks by name against the service: a stack is
reported unless it is absent or delete-complete (a deleted stack is no
longer addressable by name); otherwise the call fails with a validation
error. -/
def serviceDescribe (svc : Service) (name : String) :
    Except AwsError (List StackStatus) :=
  match lookupStack svc name with
  | none => Except.error AwsError.validationError
  | some st =>
    if st = StackStatus.deleteComplete then Except.error AwsError.validationError
    else Except.ok [st]

/-- Complete states of the specification state machine. -/
def isCompleteStatus : StackStatus → Bool
  | .createComplete => true
  | .updateComplete => true
  | .rollbackComplete => true
  | _ => false

/-- C1: with the existence lookup answered by the service, a Deploy
invocation that reads its template issues a create request and no update
request when the stack name is absent, and an update request and no create
request when the name is bound to a stack in a complete state. -/
theorem deploy_absent_creates_present_updates
    (svc : Service) (name : String) (env : DeployEnv) (body : String)
    (hread : env.templateRead = Except.ok body)
    (hdesc : env.describeOutcome = serviceDescribe svc name) :
    (lookupStack svc name = none →
      Request.createStack name ∈ (deploy_cloudformation_stack name env).2 ∧
      Request.updateStack name ∉ (deploy_cloudformation_stack name env).2) ∧
    (∀ st, lookupStack svc name = some st → isCompleteStatus st = true →
      Request.updateStack name ∈ (deploy_cloudformation_stack name env).2 ∧
      Request.createStack name ∉ (deploy_cloudformation_stack name env).2) := by
  obtain ⟨tr, de, co, uo, wo, fd⟩ := env
  simp only at hread hdesc
  subst hread hdesc
  constructor
  · intro habs
    rcases co with e | u <;>
      rcases wo with e₂ | w <;>
      rcases fd with e₃ | l <;>
      simp [deploy_cloudformation_stack, serviceDescribe, habs] <;>
      rcases l with _ | ⟨st, rest⟩ <;> simp
  · intro st hst hcomp
    have hvis : ¬ st = StackStatus.deleteComplete := by
      intro h; subst h; simp [isCompleteStatus] at hcomp
    rcases uo with e | u <;>
      rcases wo with e₂ | w <;>
      rcases fd with e₃ | l <;>
      simp [deploy_cloudformation_stack, serviceDescribe, hst, hvis] <;>
      rcases l with _ | ⟨st₂, rest⟩ <;> simp

/-- Simulated service used by concrete instantiations: one stack in a
create-complete state, page size 100. -/
def svcDemo : Service :=
  ⟨[("orders-stack", StackStatus.createComplete)], 100⟩

/-- Concrete deploy environment for an absent stack name, with the
existence lookup answered by the service. -/
def envAbsent : DeployEnv :=
  ⟨Except.ok "template-body", serviceDescribe svcDemo "ghost-stack",
   Except.ok (), Except.ok (), Except.ok (),
   Except.ok [StackStatus.createComplete]⟩

/-- Concrete deploy environment for a present stack name. -/
def envPresent : DeployEnv :=
  ⟨Except.ok "template-body", serviceDescribe svcDemo "orders-stack",
   Except.ok (), Except.ok (), Except.ok (),
   Except.ok [StackStatus.updateComplete]⟩

/-- Witness for C1: at the concrete service, an absent name receives a
create and no update, and the present complete stack receives an update
and no create. -/
theorem deploy_absent_creates_present_updates_witness :
    (Request.createStack "ghost-stack" ∈
        (deploy_cloudformation_stack "ghost-stack" envAbsent).2 ∧
      Request.updateStack "ghost-stack" ∉
        (deploy_cloudformation_stack "ghost-stack" envAbsent).2) ∧
    (Request.updateStack "orders-stack" ∈
        (deploy_cloudformation_stack "orders-stack" envPresent).2 ∧
      Request.createStack "orders-stack" ∉
        (deploy_cloudformation_stack "orders-stack" envPresent).2) :=
  ⟨(deploy_absent_creates_present_updates svcDemo "ghost-stack" envAbsent
      "template-body" rfl rfl).1 (by decide),
   (deploy_absent_creates_present_updates svcDemo "orders-stack" envPresent
      "template-body" rfl rfl).2 StackStatus.createComplete (by decide)
      (by decide)⟩

/-- C8: any failure of the existence lookup, of any kind, classifies the
stack as absent: Deploy then issues a create request and no update
request, and it does not fail merely because of the lookup error (when the
create, the waiter and the final describe succeed, Deploy returns true). -/
theorem deploy_lookup_failure_treated_as_absent
    (name : String) (env : DeployEnv) (body : String) (e : AwsError)
    (hread : env.templateRead = Except.ok body)
    (hdesc : env.describeOutcome = Except.error e) :
    Request.createStack name ∈ (deploy_cloudformation_stack name env).2 ∧
    Request.updateStack name ∉ (deploy_cloudformation_stack name env).2 ∧
    (env.createOutcome = Except.ok () → env.waiterOutcome = Except.ok () →
      (∃ st rest, env.finalDescribe = Except.ok (st :: rest)) →
      (deploy_cloudformation_stack name env).1 = true) := by
  obtain ⟨tr, de, co, uo, wo, fd⟩ := env
  simp only at hread hdesc
  subst hread hdesc
  refine ⟨?_, ?_, ?_⟩
  · rcases co with e₁ | u <;>
      rcases wo with e₂ | w <;>
      rcases fd with e₃ | l <;>
      simp [deploy_cloudformation_stack] <;>
      rcases l with _ | ⟨st, rest⟩ <;> simp
  · rcases co with e₁ | u <;>
      rcases wo with e₂ | w <;>
      rcases fd with e₃ | l <;>
      simp [deploy_cloudformation_stack] <;>
      rcases l with _ | ⟨st, rest⟩ <;> simp
  · intro hco hwo hfd
    simp only at hco hwo
    subst hco hwo
    obtain ⟨st, rest, hfd⟩ := hfd
    simp only at hfd
    subst hfd
    simp [deploy_cloudformation_stack]

/-- Concrete deploy environment whose existence lookup fails with a
permission error rather than a not-found response. -/
def envLookupDenied : DeployEnv :=
  ⟨Except.ok "template-body", Except.error AwsError.accessDenied,
   Except.ok (), Except.ok (), Except.ok (),
   Except.ok [StackStatus.createComplete]⟩

/-- Witness for C8 at a lookup denied by permissions: a create is issued,
no update is issued, and the deploy still succeeds. -/
theorem deploy_lookup_failure_treated_as_absent_witness :
    Request.createStack "orders-stack" ∈
      (deploy_cloudformation_stack "orders-stack" envLookupDenied).2 ∧
    Request.updateStack "orders-stack" ∉
      (deploy_cloudformation_stack "orders-stack" envLookupDenied).2 ∧
    (envLookupDenied.createOutcome = Except.ok () →
      envLookupDenied.waiterOutcome = Except.ok () →
      (∃ st rest, envLookupDenied.finalDescribe = Except.ok (st :: rest)) →
      (deploy_cloudformation_stack "orders-stack" envLookupDenied).1 = true) :=
  deploy_lookup_failure_treated_as_absent "orders-stack" envLookupDenied
    "template-body" AwsError.accessDenied rfl rfl

/-- C9: a failing template read makes Deploy return false with no remote
request issued at all: the file is read before any CloudFormation call. -/
theorem deploy_template_read_failure_no_requests
    (name : String) (env : DeployEnv) (e : AwsError)
    (hread : env.templateRead = Except.error e) :
    deploy_cloudformation_stack name env = (false, []) := by
  obtain ⟨tr, de, co, uo, wo, fd⟩ := env
  simp only at hread
  subst hread
  rfl

/-- Concrete deploy environment whose template file read fails. -/
def envBadTemplate : DeployEnv :=
  ⟨Except.error AwsError.ioError, serviceDescribe svcDemo "orders-stack",
   Except.ok (), Except.ok (), Except.ok (),
   Except.ok [StackStatus.createComplete]⟩

/-- Witness for C9 at a concrete unreadable template: the result is false
and the request trace is empty. -/
theorem deploy_template_read_failure_no_requests_witness :
    deploy_cloudformation_stack "orders-stack" envBadTemplate = (false, []) :=
  deploy_template_read_failure_no_requests "orders-stack" envBadTemplate
    AwsError.ioError rfl

/-- Modelled from the spec: the blocking poll performed after each deploy
request is provider waiter code (boto3 get_waiter and wait), external to
the repository. Following the specification, the waiter repeatedly
observes the stack status (obs i is the status seen at attempt i, one
fixed backoff apart), stops at the first observation accepted by the
terminal predicate, and gives up after maxAttempts observations. It
returns the index of the first terminal observation, or none when no
terminal status occurs within maxAttempts. -/
def waiterWait (isTerminal : StackStatus → Bool) (obs : Nat → StackStatus) :
    Nat → Option Nat
  | 0 => none
  | n + 1 =>
    if isTerminal (obs 0) then some 0
    else (waiterWait isTerminal (fun i => obs (i + 1)) n).map (fun j => j + 1)

/-- Terminal statuses of the deploy poll, per the specification: any
complete status, or the failure statuses. -/
def isTerminalStatus : StackStatus → Bool
  | .createComplete => true
  | .updateComplete => true
  | .rollbackComplete => true
  | .deleteComplete => true
  | .failed => true
  | _ => false

theorem waiterWait_first_terminal (acc : StackStatus → Bool) :
    ∀ (n k : Nat) (obs : Nat → StackStatus), k < n → acc (obs k) = true →
      (∀ i, i < k → acc (obs i) = false) → waiterWait acc obs n = some k := by
  intro n
  induction n with
  | zero => intro k obs hk; omega
  | succ n ih =>
    intro k obs hk hterm hfirst
    cases k with
    | zero => simp [waiterWait, hterm]
    | succ j =>
      have h0 : acc (obs 0) = false := hfirst 0 (Nat.succ_pos j)
      have hrec : waiterWait acc (fun i => obs (i + 1)) n = some j := by
        refine ih j (fun i => obs (i + 1)) (Nat.lt_of_succ_lt_succ hk) hterm ?_
        intro i hi
        exact hfirst (i + 1) (Nat.succ_lt_succ hi)
      simp [waiterWait, h0, hrec]

theorem waiterWait_lt (acc : StackStatus → Bool) :
    ∀ (n : Nat) (obs : Nat → StackStatus) (j : Nat),
      waiterWait acc obs n = some j → j < n := by
  intro n
  induction n with
  | zero => intro obs j h; simp [waiterWait] at h
  | succ n ih =>
    intro obs j h
    by_cases h0 : acc (obs 0) = true
    · simp [waiterWait, h0] at h
      omega
    · simp only [Bool.not_eq_true] at h0
      simp [waiterWait, h0] at h
      obtain ⟨j₂, hj₂, hjeq⟩ := h
      have := ih (fun i => obs (i + 1)) j₂ hj₂
      omega

theorem waiterWait_congr (acc : StackStatus → Bool) :
    ∀ (n : Nat) (obs obs₂ : Nat → StackStatus),
      (∀ i, i < n → obs i = obs₂ i) →
      waiterWait acc obs n = waiterWait acc obs₂ n := by
  intro n
  induction n with
  | zero => intro obs obs₂ _; rfl
  | succ n ih =>
    intro obs obs₂ hagree
    have h0 : obs 0 = obs₂ 0 := hagree 0 (Nat.succ_pos n)
    have hrest : waiterWait acc (fun i => obs (i + 1)) n
        = waiterWait acc (fun i => obs₂ (i + 1)) n := by
      refine ih (fun i => obs (i + 1)) (fun i => obs₂ (i + 1)) ?_
      intro i hi
      exact hagree (i + 1) (Nat.succ_lt_succ hi)
    simp [waiterWait, h0, hrest]

/-- C3: the deploy poll stops at the first observation whose status is
terminal, any index it returns is below the maximum number of attempts,
and the poll never consults an observation beyond that configurable
maximum (two observation streams that agree on the first maxAttempts
entries produce the same result). -/
theorem deploy_poll_first_terminal_and_bounded
    (obs : Nat → StackStatus) (maxAttempts k : Nat)
    (hk : k < maxAttempts)
    (hterm : isTerminalStatus (obs k) = true)
    (hfirst : ∀ i, i < k → isTerminalStatus (obs i) = false) :
    waiterWait isTerminalStatus obs maxAttempts = some k ∧
    (∀ j, waiterWait isTerminalStatus obs maxAttempts = some j →
      j < maxAttempts) ∧
    (∀ obs₂, (∀ i, i < maxAttempts → obs i = obs₂ i) →
      waiterWait isTerminalStatus obs maxAttempts
        = waiterWait isTerminalStatus obs₂ maxAttempts) :=
  ⟨waiterWait_first_terminal isTerminalStatus maxAttempts k obs hk hterm hfirst,
   fun j h => waiterWait_lt isTerminalStatus maxAttempts obs j h,
   fun obs₂ h => waiterWait_congr isTerminalStatus maxAttempts obs obs₂ h⟩

/-- Observation stream for the C3 witness: two in-progress observations,
then create-complete forever. -/
def obsDemo : Nat → StackStatus :=
  fun i => if i < 2 then StackStatus.creating else StackStatus.createComplete

/-- Witness for C3 at a concrete observation stream and bound: the poll
returns the first terminal index, every returned index is below the bound,
and only the first five observations matter. -/
theorem deploy_poll_first_terminal_and_bounded_witness :
    waiterWait isTerminalStatus obsDemo 5 = some 2 ∧
    (∀ j, waiterWait isTerminalStatus obsDemo 5 = some j → j < 5) ∧
    (∀ obs₂, (∀ i, i < 5 → obsDemo i = obs₂ i) →
      waiterWait isTerminalStatus obsDemo 5
        = waiterWait isTerminalStatus obs₂ 5) :=
  deploy_poll_first_terminal_and_bounded obsDemo 5 2 (by decide) (by decide)
    (by decide)

/-- Outcomes of the external calls made by
AWSDeployer.delete_cloudformation_stack: the delete request and the delete
waiter. -/
structure DeleteEnv where
  deleteOutcome : Except AwsError Unit
  waiterOutcome : Except AwsError Unit

/-- Shallow embedding of AWSDeployer.delete_cloudformation_stack
(deploy.py lines 146 to 170): issue delete_stack, wait for deletion,
return true; any failure is caught and turned into a false return. -/
def delete_cloudformation_stack (stackName : String) (env : DeleteEnv) :
    Bool × List Request :=
  match env.deleteOutcome with
  | .error _ => (false, [Request.deleteStack stackName])
  | .ok _ =>
    match env.waiterOutcome with
    | .error _ => (false, [Request.deleteStack stackName])
    | .ok _ => (true, [Request.deleteStack stackName])

/-- Response page of a list_stacks call: the StackSummaries of the page
and the continuation token (NextToken), present when more pages follow. -/
structure ListPage where
  stackSummaries : List (String × StackStatus)
  nextToken : Option Nat

/-- Status filter passed by list_stacks (deploy.py lines 180 to 186). -/
def stackStatusFilter : List StackStatus :=
  [StackStatus.createComplete, StackStatus.updateComplete,
   StackStatus.rollbackComplete]

/-- Stacks of the service whose status passes the list_stacks filter. -/
def settledStacks (svc : Service) : List (String × StackStatus) :=
  svc.stackTable.filter (fun p => stackStatusFilter.contains p.2)

/-- First response page of list_stacks as produced by the service: the
filtered stacks truncated to the provider page size, with a continuation
token exactly when further pages exist. -/
def serviceListPage (svc : Service) : ListPage :=
  ⟨(settledStacks svc).take svc.pageSize,
   if svc.pageSize < (settledStacks svc).length then some svc.pageSize
   else none⟩

/-- Shallow embedding of AWSDeployer.list_stacks (deploy.py lines 172 to
201): one list_stacks request is issued; the StackSummaries of the
response are returned as they came, the NextToken is never read, and any
failure is caught and turned into an empty list. -/
def list_stacks (outcome : Except AwsError ListPage) :
    List (String × StackStatus) × List Request :=
  match outcome with
  | .error _ => ([], [Request.listStacks])
  | .ok page => (page.stackSummaries, [Request.listStacks])

/-- C10: list_stacks issues exactly one list request, returns exactly the
first page of the filtered stacks, and never consults the continuation
token (the result does not depend on it). -/
theorem list_stacks_single_request_first_page (svc : Service) :
    (list_stacks (Except.ok (serviceListPage svc))).2 = [Request.listStacks] ∧
    (list_stacks (Except.ok (serviceListPage svc))).1
      = (settledStacks svc).take svc.pageSize ∧
    (∀ t, (list_stacks
        (Except.ok ⟨(serviceListPage svc).stackSummaries, t⟩)).1
      = (list_stacks (Except.ok (serviceListPage svc))).1) :=
  ⟨rfl, rfl, fun _ => rfl⟩

/-- Service holding two settled stacks while the provider page size is
one: the filtered population does not fit in a single page. -/
def svcTwoPages : Service :=
  ⟨[("alpha", StackStatus.createComplete),
    ("beta", StackStatus.createComplete)], 1⟩

/-- Counterexample to C6 as stated: a stack of the service passes the
status filter yet is not returned by List, so List does not return exactly
the stacks whose status is in the settled subset. -/
theorem list_stacks_not_exactly_settled :
    ("beta", StackStatus.createComplete) ∈ svcTwoPages.stackTable ∧
    stackStatusFilter.contains StackStatus.createComplete = true ∧
    ("beta", StackStatus.createComplete) ∉
      (list_stacks (Except.ok (serviceListPage svcTwoPages))).1 := by
  decide

/-- C6 amended: every stack returned by List passes the settled status
filter (in particular none is delete-complete), and List returns exactly
the stacks whose status is in the settled subset whenever the filtered
population fits in one provider page. -/
theorem list_stacks_settled_first_page_only (svc : Service) :
    (∀ p, p ∈ (list_stacks (Except.ok (serviceListPage svc))).1 →
      stackStatusFilter.contains p.2 = true ∧
      p.2 ≠ StackStatus.deleteComplete) ∧
    ((settledStacks svc).length ≤ svc.pageSize →
      (list_stacks (Except.ok (serviceListPage svc))).1
        = settledStacks svc) := by
  constructor
  · intro p hp
    have hmem : p ∈ settledStacks svc := by
      have := List.take_subset svc.pageSize (settledStacks svc)
      exact this hp
    have hfilter : stackStatusFilter.contains p.2 = true := by
      have := List.of_mem_filter hmem
      simpa using this
    refine ⟨hfilter, ?_⟩
    intro hdel
    rw [hdel] at hfilter
    simp [stackStatusFilter] at hfilter
  · intro hlen
    simp [list_stacks, serviceListPage, List.take_of_length_le hlen]

/-- Witness for C6 amended at the concrete one-stack service: the returned
stack passes the filter and is not delete-complete, and the whole settled
population is returned since it fits in one page. -/
theorem list_stacks_settled_first_page_only_witness :
    (stackStatusFilter.contains
        ("orders-stack", StackStatus.createComplete).2 = true ∧
      ("orders-stack", StackStatus.createComplete).2
        ≠ StackStatus.deleteComplete) ∧
    (list_stacks (Except.ok (serviceListPage svcDemo))).1
      = settledStacks svcDemo :=
  ⟨(list_stacks_settled_first_page_only svcDemo).1
      ("orders-stack", StackStatus.createComplete) (by decide),
   (list_stacks_settled_first_page_only svcDemo).2 (by decide)⟩

/-- Actions accepted by the command line entry point of deploy.py. -/
inductive CliAction where
  | deploy
  | delete
  | list
  | validate
  | estimate
  deriving DecidableEq, Repr

/-- Command line arguments of the entry point after parsing: the action
and the optional stack name, template path and repeated parameters. -/
structure CliArgs where
  action : CliAction
  stackName : Option String
  template : Option String
  params : List (String × String)

/-- External outcomes consumed by one run of main: success of the
credential lookup, the outcomes consumed by the deploy and delete calls,
the list_stacks outcome, and the reply typed at the delete confirmation
prompt. -/
structure CliEnv where
  credsValid : Bool
  deployEnv : DeployEnv
  deleteEnv : DeleteEnv
  listOutcome : Except AwsError ListPage
  confirmInput : String

/-- Shallow embedding of AWSDeployer.validate_credentials (deploy.py lines
43 to 64): one sts get_caller_identity request whose success is the
returned boolean; a failing lookup is caught and returned as false. -/
def validate_credentials (credsValid : Bool) : Bool × List Request :=
  (credsValid, [Request.getCallerIdentity])

theorem list_stacks_trace (outcome : Except AwsError ListPage) :
    (list_stacks outcome).2 = [Request.listStacks] := by
  cases outcome <;> rfl

theorem delete_stack_trace (stackName : String) (env : DeleteEnv) :
    (delete_cloudformation_stack stackName env).2
      = [Request.deleteStack stackName] := by
  obtain ⟨d, w⟩ := env
  cases d <;> cases w <;> rfl

/-- Model of the Python str.lower method used on the confirmation reply:
every character is mapped to its lower case form. -/
def pyLower (s : String) : String :=
  ⟨s.data.map Char.toLower⟩

/-- Shallow embedding of main (deploy.py lines 221 to 328), returning the
process exit code and the trace of remote requests issued. The validate
action exits 1 on invalid credentials; the list action ignores the result
of list_stacks and always exits 0; the estimate action only requires that
a template path was given; the deploy action requires stack name and
template, validates credentials first, and exits 1 when the deploy fails;
the delete action requires a stack name, asks for a yes confirmation
(exiting 0 when the reply is anything else), performs no credential check,
and exits 1 when the delete fails. -/
def mainRun (args : CliArgs) (env : CliEnv) : Nat × List Request :=
  match args.action with
  | .validate =>
    let v := validate_credentials env.credsValid
    if v.1 then (0, v.2) else (1, v.2)
  | .list =>
    let r := list_stacks env.listOutcome
    (0, r.2)
  | .estimate =>
    match args.template with
    | none => (1, [])
    | some _ => (0, [])
  | .deploy =>
    match args.stackName, args.template with
    | some name, some _tmpl =>
      let v := validate_credentials env.credsValid
      if v.1 then
        let r := deploy_cloudformation_stack name env.deployEnv
        (if r.1 then 0 else 1, v.2 ++ r.2)
      else (1, v.2)
    | _, _ => (1, [])
  | .delete =>
    match args.stackName with
    | none => (1, [])
    | some name =>
      if pyLower env.confirmInput = "yes" then
        let r := delete_cloudformation_stack name env.deleteEnv
        (if r.1 then 0 else 1, r.2)
      else (0, [])

/-- Arguments of a delete run on the demo stack. -/
def argsDeleteDemo : CliArgs :=
  ⟨CliAction.delete, some "orders-stack", none, []⟩

/-- Arguments of a deploy run on the demo stack. -/
def argsDeployDemo : CliArgs :=
  ⟨CliAction.deploy, some "orders-stack", some "template.yaml", []⟩

/-- Arguments of a list run. -/
def argsListDemo : CliArgs :=
  ⟨CliAction.list, none, none, []⟩

/-- CLI environment with invalid ambient credentials and a confirmed
delete prompt. -/
def envCliBadCreds : CliEnv :=
  ⟨false, envPresent, ⟨Except.ok (), Except.ok ()⟩,
   Except.ok (serviceListPage svcDemo), "yes"⟩

/-- Counterexample to C2 as stated: with invalid credentials (a credential
check would fail), the delete action still issues a mutating delete
request, and no credential check request at all occurs on its path. -/
theorem cli_delete_unguarded_counterexample :
    envCliBadCreds.credsValid = false ∧
    Request.deleteStack "orders-stack"
      ∈ (mainRun argsDeleteDemo envCliBadCreds).2 ∧
    Request.getCallerIdentity ∉ (mainRun argsDeleteDemo envCliBadCreds).2 := by
  decide

/-- C2 amended: a failing credential check prevents every mutating request
on each action path that performs the check, and deploy performs it: with
invalid credentials, every action other than delete issues no mutating
request at all; the delete action, however, performs no credential check:
no get_caller_identity request occurs on its path. -/
theorem cli_credential_gate_amended (args : CliArgs) (env : CliEnv)
    (hcreds : env.credsValid = false) :
    (args.action ≠ CliAction.delete →
      ∀ r ∈ (mainRun args env).2, r.isMutating = false) ∧
    (args.action = CliAction.delete →
      Request.getCallerIdentity ∉ (mainRun args env).2) := by
  obtain ⟨act, sn, tp, ps⟩ := args
  constructor
  · intro _hne r hr
    cases act with
    | validate =>
      simp [mainRun, validate_credentials, hcreds] at hr
      simp [hr, Request.isMutating]
    | list =>
      rw [mainRun] at hr
      simp only [list_stacks_trace, List.mem_singleton] at hr
      simp [hr, Request.isMutating]
    | estimate =>
      cases tp <;> simp [mainRun] at hr
    | deploy =>
      cases sn with
      | none => simp [mainRun] at hr
      | some name =>
        cases tp with
        | none => simp [mainRun] at hr
        | some tmpl =>
          simp [mainRun, validate_credentials, hcreds] at hr
          simp [hr, Request.isMutating]
    | delete => exact absurd rfl _hne
  · intro hact
    simp only at hact
    subst hact
    cases sn with
    | none => simp [mainRun]
    | some name =>
      by_cases hc : pyLower env.confirmInput = "yes"
      · rw [mainRun]
        simp only [hc, if_true]
        simp [delete_stack_trace]
      · simp [mainRun, hc]

/-- Witness for C2 amended: with invalid credentials, the deploy run
issues no create request, and the delete run never checks credentials. -/
theorem cli_credential_gate_amended_witness :
    Request.createStack "orders-stack"
      ∉ (mainRun argsDeployDemo envCliBadCreds).2 ∧
    Request.getCallerIdentity ∉ (mainRun argsDeleteDemo envCliBadCreds).2 := by
  constructor
  · intro hmem
    have h := (cli_credential_gate_amended argsDeployDemo envCliBadCreds
        rfl).1 (by decide) (Request.createStack "orders-stack") hmem
    simp [Request.isMutating] at h
  · exact (cli_credential_gate_amended argsDeleteDemo envCliBadCreds rfl).2 rfl

/-- CLI environment whose list_stacks call fails with a network error. -/
def envCliListFail : CliEnv :=
  ⟨true, envPresent, ⟨Except.ok (), Except.ok ()⟩,
   Except.error AwsError.networkError, "yes"⟩

/-- Counterexample to C7 as stated: the list operation fails (its outcome
is an error and the returned inventory is the empty sentinel), yet the
process exit code is 0, not 1. -/
theorem cli_list_failure_exits_zero_counterexample :
    envCliListFail.listOutcome = Except.error AwsError.networkError ∧
    (list_stacks envCliListFail.listOutcome).1 = [] ∧
    (mainRun argsListDemo envCliListFail).1 = 0 := by
  refine ⟨rfl, rfl, rfl⟩

/-- C7 amended: the exit code is 0 exactly on success and 1 on validation
or operation failure for the validate, estimate, deploy and delete
actions, where a delete cancelled at the prompt exits 0; for the list
action, however, the exit code is 0 even when the underlying operation
fails. -/
theorem cli_exit_code_amended (args : CliArgs) (env : CliEnv) :
    (args.action = CliAction.validate →
      ((mainRun args env).1 = 0 ↔ env.credsValid = true)) ∧
    (args.action = CliAction.list → (mainRun args env).1 = 0) ∧
    (args.action = CliAction.estimate →
      ((mainRun args env).1 = 0 ↔ args.template.isSome)) ∧
    (∀ name tmpl, args.action = CliAction.deploy →
      args.stackName = some name → args.template = some tmpl →
      ((mainRun args env).1 = 0 ↔ env.credsValid = true ∧
        (deploy_cloudformation_stack name env.deployEnv).1 = true)) ∧
    (args.action = CliAction.deploy →
      (args.stackName = none ∨ args.template = none) →
      (mainRun args env).1 = 1) ∧
    (∀ name, args.action = CliAction.delete → args.stackName = some name →
      ((mainRun args env).1 = 0 ↔ (pyLower env.confirmInput ≠ "yes" ∨
        (delete_cloudformation_stack name env.deleteEnv).1 = true))) ∧
    (args.action = CliAction.delete → args.stackName = none →
      (mainRun args env).1 = 1) := by
  obtain ⟨act, sn, tp, ps⟩ := args
  refine ⟨?_, ?_, ?_, ?_, ?_, ?_, ?_⟩
  · intro hact
    simp only at hact
    subst hact
    cases hcv : env.credsValid <;>
      simp [mainRun, validate_credentials, hcv]
  · intro hact
    simp only at hact
    subst hact
    rfl
  · intro hact
    simp only at hact
    subst hact
    cases tp <;> simp [mainRun]
  · intro name tmpl hact hsn htp
    simp only at hact hsn htp
    subst hact hsn htp
    cases hcv : env.credsValid with
    | false => simp [mainRun, validate_credentials, hcv]
    | true =>
      cases hd : (deploy_cloudformation_stack name env.deployEnv).1 <;>
        simp [mainRun, validate_credentials, hcv, hd]
  · intro hact hmiss
    simp only at hact
    subst hact
    rcases hmiss with h | h <;> simp only at h <;> subst h
    · rfl
    · cases sn <;> rfl
  · intro name hact hsn
    simp only at hact hsn
    subst hact hsn
    by_cases hc : pyLower env.confirmInput = "yes"
    · cases hd : (delete_cloudformation_stack name env.deleteEnv).1 <;>
        simp [mainRun, hc, hd]
    · simp [mainRun, hc]
  · intro hact hsn
    simp only at hact hsn
    subst hact hsn
    rfl

/-- CLI environment with valid credentials and a successful deploy. -/
def envCliGoodCreds : CliEnv :=
  ⟨true, envPresent, ⟨Except.ok (), Except.ok ()⟩,
   Except.ok (serviceListPage svcDemo), "yes"⟩

/-- Witness for C7 amended: a failing list run still exits 0, and the exit
code of a concrete deploy run is 0 exactly when credentials are valid and
the deploy succeeded. -/
theorem cli_exit_code_amended_witness :
    (mainRun argsListDemo envCliListFail).1 = 0 ∧
    ((mainRun argsDeployDemo envCliGoodCreds).1 = 0 ↔
      envCliGoodCreds.credsValid = true ∧
      (deploy_cloudformation_stack "orders-stack"
        envCliGoodCreds.deployEnv).1 = true) :=
  ⟨(cli_exit_code_amended argsListDemo envCliListFail).2.1 rfl,
   (cli_exit_code_amended argsDeployDemo envCliGoodCreds).2.2.2.1
     "orders-stack" "template.yaml" rfl rfl rfl⟩

/-- Python exception classes relevant to the service example scripts: a
botocore ClientError carries the service error response; waiter and
connection failures are distinct classes that the except ClientError
handlers of those scripts do not catch. -/
inductive PyExc where
  | clientError (e : AwsError)
  | waiterError
  | connectionError
  deriving DecidableEq, Repr

/-- Outcomes of the external calls made by EC2Manager.create_instance, in
program order: run_instances (returning the new instance id), the running
waiter, and the optional create_tags call (performed when tags were
given). -/
structure Ec2CreateEnv where
  runInstancesOutcome : Except PyExc String
  waiterOutcome : Except PyExc Unit
  tags : Bool
  createTagsOutcome : Except PyExc Unit

/-- Shallow embedding of EC2Manager.create_instance (ec2_management.py
lines 34 to 114): run_instances, the running waiter, then optional
create_tags; the except ClientError handler logs and re-raises, so every
failure of the body is propagated to the caller (a ClientError by the
explicit re-raise, any other exception because it is never caught). -/
def create_instance (env : Ec2CreateEnv) : Except PyExc String :=
  match env.runInstancesOutcome with
  | .error e => .error e
  | .ok instanceId =>
    match env.waiterOutcome with
    | .error e => .error e
    | .ok _ =>
      if env.tags then
        match env.createTagsOutcome with
        | .error e => .error e
        | .ok _ => .ok instanceId
      else .ok instanceId

/-- Outcomes of the external calls made by EC2Manager.stop_instance:
stop_instances and the stopped waiter. -/
structure Ec2StopEnv where
  stopInstancesOutcome : Except PyExc Unit
  waiterOutcome : Except PyExc Unit

/-- Shallow embedding of EC2Manager.stop_instance (ec2_management.py lines
116 to 147): stop_instances then the stopped waiter; a ClientError raised
in the body is caught and converted to a false return, while any other
exception propagates. -/
def stop_instance (env : Ec2StopEnv) : Except PyExc Bool :=
  let body : Except PyExc Unit :=
    match env.stopInstancesOutcome with
    | .error e => .error e
    | .ok _ => env.waiterOutcome
  match body with
  | .ok _ => .ok true
  | .error (PyExc.clientError _) => .ok false
  | .error e => .error e

/-- Outcomes of the external calls made by VPCManager.create_vpc, in
program order: create_vpc (returning the new vpc id), the available
waiter, the two optional attribute modifications, and the optional
create_tags call. -/
structure VpcCreateEnv where
  createVpcOutcome : Except PyExc String
  waiterOutcome : Except PyExc Unit
  enableDnsHostnames : Bool
  modifyHostnamesOutcome : Except PyExc Unit
  enableDnsSupport : Bool
  modifySupportOutcome : Except PyExc Unit
  tags : Bool
  createTagsOutcome : Except PyExc Unit

/-- Shallow embedding of VPCManager.create_vpc (vpc_setup.py lines 28 to
98): create_vpc, the available waiter, the optional DNS attribute
modifications, optional tags; the except ClientError handler logs and
re-raises, so every failure of the body is propagated to the caller. -/
def create_vpc (env : VpcCreateEnv) : Except PyExc String :=
  match env.createVpcOutcome with
  | .error e => .error e
  | .ok vpcId =>
    match env.waiterOutcome with
    | .error e => .error e
    | .ok _ =>
      let step₁ : Except PyExc Unit :=
        if env.enableDnsHostnames then env.modifyHostnamesOutcome
        else Except.ok ()
      match step₁ with
      | .error e => .error e
      | .ok _ =>
        let step₂ : Except PyExc Unit :=
          if env.enableDnsSupport then env.modifySupportOutcome
          else Except.ok ()
        match step₂ with
        | .error e => .error e
        | .ok _ =>
          if env.tags then
            match env.createTagsOutcome with
            | .error e => .error e
            | .ok _ => .ok vpcId
          else .ok vpcId

/-- Outcomes of the external calls made by S3Manager.create_bucket, in
program order: the create_bucket request and the three optional
configuration calls, each performed when its flag is set. -/
structure S3CreateEnv where
  createBucketOutcome : Except PyExc Unit
  versioning : Bool
  versioningOutcome : Except PyExc Unit
  encryption : Bool
  encryptionOutcome : Except PyExc Unit
  blockPublic : Bool
  blockPublicOutcome : Except PyExc Unit

/-- Shallow embedding of S3Manager.create_bucket (s3_operations.py lines
33 to 120): create_bucket, then optional put_bucket_versioning,
put_bucket_encryption and put_public_access_block, returning true; a
ClientError raised in the body is caught and converted to a false return,
while any other exception propagates. -/
def create_bucket (env : S3CreateEnv) : Except PyExc Bool :=
  let body : Except PyExc Unit :=
    match env.createBucketOutcome with
    | .error e => .error e
    | .ok _ =>
      match (if env.versioning then env.versioningOutcome
             else Except.ok ()) with
      | .error e => .error e
      | .ok _ =>
        match (if env.encryption then env.encryptionOutcome
               else Except.ok ()) with
        | .error e => .error e
        | .ok _ =>
          if env.blockPublic then env.blockPublicOutcome else Except.ok ()
  match body with
  | .ok _ => .ok true
  | .error (PyExc.clientError _) => .ok false
  | .error e => .error e

/-- Outcome of the single external call made by SQSManager.send_message:
the send_message request, whose response carries the message id. -/
structure SqsSendEnv where
  sendMessageOutcome : Except PyExc String

/-- Shallow embedding of SQSManager.send_message (sqs_sns_example.py lines
91 to 139): one send_message request returning the MessageId of the
response; the except ClientError handler logs and re-raises, so every
failure is propagated to the caller. -/
def send_message (env : SqsSendEnv) : Except PyExc String :=
  match env.sendMessageOutcome with
  | .error e => .error e
  | .ok messageId => .ok messageId

/-- EC2 create environment whose run_instances call is denied. -/
def ec2EnvDenied : Ec2CreateEnv :=
  ⟨Except.error (PyExc.clientError AwsError.accessDenied), Except.ok (),
   false, Except.ok ()⟩

/-- VPC create environment whose create_vpc call is denied. -/
def vpcEnvDenied : VpcCreateEnv :=
  ⟨Except.error (PyExc.clientError AwsError.accessDenied), Except.ok (),
   true, Except.ok (), true, Except.ok (), false, Except.ok ()⟩

/-- EC2 stop environment whose stop_instances call is denied. -/
def stopEnvDenied : Ec2StopEnv :=
  ⟨Except.error (PyExc.clientError AwsError.accessDenied), Except.ok ()⟩

/-- Delete environment whose delete_stack call fails. -/
def deleteEnvFailed : DeleteEnv :=
  ⟨Except.error AwsError.accessDenied, Except.ok ()⟩

/-- Counterexample to C4 as stated: a permission-denied failure of the
remote call in EC2Manager.create_instance and in VPCManager.create_vpc is
propagated to the caller as the raised error itself, not converted to a
sentinel failure value. -/
theorem remote_failure_propagated_counterexample :
    create_instance ec2EnvDenied
      = Except.error (PyExc.clientError AwsError.accessDenied) ∧
    create_vpc vpcEnvDenied
      = Except.error (PyExc.clientError AwsError.accessDenied) :=
  ⟨rfl, rfl⟩

/-- S3 create environment whose create_bucket call is denied. -/
def s3EnvDenied : S3CreateEnv :=
  ⟨Except.error (PyExc.clientError AwsError.accessDenied), true,
   Except.ok (), true, Except.ok (), true, Except.ok ()⟩

/-- SQS send environment whose send_message call is denied. -/
def sqsEnvDenied : SqsSendEnv :=
  ⟨Except.error (PyExc.clientError AwsError.accessDenied)⟩

/-- C4 amended: remote call failures are not uniformly converted to
sentinel values; the policy is individual to each operation. The
operations of deploy.py catch every failure at the point of the call and
convert it to a sentinel (false or the empty list), and so do some
service-example operations, creating and non-creating alike
(EC2Manager.stop_instance, S3Manager.create_bucket); but other
operations, again creating and non-creating alike
(EC2Manager.create_instance, VPCManager.create_vpc,
SQSManager.send_message), log the failure and re-raise it, propagating it
to the caller as an exception. -/
theorem remote_failure_policy_per_operation (e : AwsError) :
    (∀ (stackName : String) (env : DeleteEnv),
      env.deleteOutcome = Except.error e →
      delete_cloudformation_stack stackName env
        = (false, [Request.deleteStack stackName])) ∧
    ((list_stacks (Except.error e)).1 = []) ∧
    (∀ env : Ec2StopEnv,
      env.stopInstancesOutcome = Except.error (PyExc.clientError e) →
      stop_instance env = Except.ok false) ∧
    (∀ env : S3CreateEnv,
      env.createBucketOutcome = Except.error (PyExc.clientError e) →
      create_bucket env = Except.ok false) ∧
    (∀ env : Ec2CreateEnv,
      env.runInstancesOutcome = Except.error (PyExc.clientError e) →
      create_instance env = Except.error (PyExc.clientError e)) ∧
    (∀ env : VpcCreateEnv,
      env.createVpcOutcome = Except.error (PyExc.clientError e) →
      create_vpc env = Except.error (PyExc.clientError e)) ∧
    (∀ env : SqsSendEnv,
      env.sendMessageOutcome = Except.error (PyExc.clientError e) →
      send_message env = Except.error (PyExc.clientError e)) := by
  refine ⟨?_, rfl, ?_, ?_, ?_, ?_, ?_⟩
  · intro stackName env h
    obtain ⟨dd, dw⟩ := env
    simp only at h
    subst h
    rfl
  · intro env h
    obtain ⟨so, wo⟩ := env
    simp only at h
    subst h
    rfl
  · intro env h
    obtain ⟨cb, vs, vso, en, eno, bp, bpo⟩ := env
    simp only at h
    subst h
    rfl
  · intro env h
    obtain ⟨ro, wo, tg, tago⟩ := env
    simp only at h
    subst h
    rfl
  · intro env h
    obtain ⟨co, wo, eh, mh, es, ms, tg, tago⟩ := env
    simp only at h
    subst h
    rfl
  · intro env h
    obtain ⟨so⟩ := env
    simp only at h
    subst h
    rfl

/-- Witness for C4 amended at concrete denied calls: delete yields the
sentinel false, list the empty sentinel, stop_instance and create_bucket
the sentinel false, while create_instance, create_vpc and send_message
yield the propagated error itself. -/
theorem remote_failure_policy_per_operation_witness :
    delete_cloudformation_stack "orders-stack" deleteEnvFailed
      = (false, [Request.deleteStack "orders-stack"]) ∧
    (list_stacks (Except.error AwsError.accessDenied)).1 = [] ∧
    stop_instance stopEnvDenied = Except.ok false ∧
    create_bucket s3EnvDenied = Except.ok false ∧
    create_instance ec2EnvDenied
      = Except.error (PyExc.clientError AwsError.accessDenied) ∧
    create_vpc vpcEnvDenied
      = Except.error (PyExc.clientError AwsError.accessDenied) ∧
    send_message sqsEnvDenied
      = Except.error (PyExc.clientError AwsError.accessDenied) :=
  have h := remote_failure_policy_per_operation AwsError.accessDenied
  ⟨h.1 "orders-stack" deleteEnvFailed rfl, h.2.1,
   h.2.2.1 stopEnvDenied rfl, h.2.2.2.1 s3EnvDenied rfl,
   h.2.2.2.2.1 ec2EnvDenied rfl, h.2.2.2.2.2.1 vpcEnvDenied rfl,
   h.2.2.2.2.2.2 sqsEnvDenied rfl⟩

end AwsDeploy
